import Mathlib

/-!
Verification development for the google-personal-mcp repository.

Shallow embedding of the core modules:
* `src/google_mcp_core/auth.py`   — `AuthManager.get_credentials` (credential lifecycle);
* `src/google_mcp_core/drive.py`  — `DriveService` with `_verify_access` (access guard);
* `src/google_mcp_core/config.py` — `ConfigManager` (resource registry).

External collaborators (the Google OAuth refresh endpoint, the interactive
consent flow, and the remote Drive API) are modelled as environments whose
outcomes are parameters; a function that performs observable side effects
returns, alongside its result, the ordered list of effect events it performed
before returning.
-/

namespace GoogleMcp

/-! ## Credential records (auth.py)

A parsed `token.json`, as loaded by `Credentials.from_authorized_user_file`.
`expired` stands for "the stored expiry timestamp is in the past" at the time
of the call; for a record with an access token, `creds.valid` in google-auth
is exactly `¬ expired`. -/

structure CredRecord where
  grantedScopes : List String
  accessToken : String
  refreshToken : Option String
  expired : Bool
  deriving DecidableEq, Repr

/-- `Credentials.has_scopes(scopes)`: every requested scope URI is among the
granted ones (set inclusion, exact string match). -/
def hasScopes (rec : CredRecord) (required : List String) : Bool :=
  required.all (fun s => rec.grantedScopes.contains s)

/-- `creds.valid` for a record that has an access token: not expired. -/
def credValid (rec : CredRecord) : Bool :=
  !rec.expired

/-- Observable side effects of `get_credentials`, in the order performed. -/
inductive AuthEvent where
  | refreshCall
  | consentFlow
  | storeWrite (rec : CredRecord)
  deriving DecidableEq, Repr

/-- Outcome of `get_credentials`. `refreshError` is the uncaught exception
raised by `creds.refresh`; `credentialsFileMissing` is the
`FileNotFoundError` from `find_credentials_file`; `consentError` is a failure
or cancellation of `flow.run_local_server`. -/
inductive AuthResult where
  | ok (rec : CredRecord)
  | refreshError
  | credentialsFileMissing
  | consentError
  deriving DecidableEq, Repr

/-- Outcomes of the external calls `get_credentials` may make.
`refreshOutcome = some t` means the token-refresh endpoint succeeds and the
new access token is `t`; `none` means the refresh call raises.
`credentialsFileFound` is whether `find_credentials_file` locates a
`credentials.json`. `consentOutcome = some r` means the interactive flow
completes and yields the record `r`; `none` means it fails or is cancelled. -/
structure AuthEnv where
  refreshOutcome : Option String
  credentialsFileFound : Bool
  consentOutcome : Option CredRecord
  deriving DecidableEq, Repr

/-- The default scope list substituted when the `scopes` argument is `None`
(auth.py line 46). -/
def defaultScopes : List String :=
  ["https://www.googleapis.com/auth/spreadsheets",
   "https://www.googleapis.com/auth/drive.file"]

/-- The consent branch of `get_credentials`: `find_credentials_file`, then
`InstalledAppFlow.run_local_server`, then the token write. The store content
is returned unchanged on the error paths (the exception propagates before the
write). -/
def runConsent (env : AuthEnv) (store : Option CredRecord) :
    AuthResult × Option CredRecord × List AuthEvent :=
  if env.credentialsFileFound then
    match env.consentOutcome with
    | none => (.consentError, store, [.consentFlow])
    | some newRec => (.ok newRec, some newRec, [.consentFlow, .storeWrite newRec])
  else
    (.credentialsFileMissing, store, [])

/-- The body of `get_credentials` after the scope default has been resolved
(auth.py lines 48–78): load and scope-check the stored record, then
return-as-is / refresh / consent, persisting on the latter two paths. -/
def authObtain (env : AuthEnv) (store : Option CredRecord)
    (scopes : List String) :
    AuthResult × Option CredRecord × List AuthEvent :=
  let creds : Option CredRecord :=
    match store with
    | none => none
    | some rec => if hasScopes rec scopes then some rec else none
  match creds with
  | some rec =>
    if credValid rec then
      (.ok rec, store, [])
    else if rec.expired && rec.refreshToken.isSome then
      match env.refreshOutcome with
      | none => (.refreshError, store, [.refreshCall])
      | some newTok =>
        let newRec : CredRecord :=
          { rec with accessToken := newTok, expired := false }
        (.ok newRec, some newRec, [.refreshCall, .storeWrite newRec])
    else
      runConsent env store
  | none => runConsent env store

/-- `AuthManager.get_credentials(profile, scopes)` (auth.py lines 41–78).

`store` is the parse result of the profile's `token.json` (`none` when the
file is missing or fails to parse — both leave `creds = None`). The returned
triple is (result, store contents after the call, effect events performed
before returning). -/
def get_credentials (env : AuthEnv) (store : Option CredRecord)
    (scopesArg : Option (List String)) :
    AuthResult × Option CredRecord × List AuthEvent :=
  authObtain env store (scopesArg.getD defaultScopes)

/-! ## Drive access guard (drive.py)

`DriveService` holds the allowlist it was constructed with; its remote
collaborator (`self.service`, the Drive API client) is modelled by a
`DriveEnv` giving the outcome of the metadata lookup per file id. Each
operation returns its result together with the ordered list of remote Drive
calls it issued. -/

/-- Outcome of `files().get(fileId, fields="parents").execute()`:
`ok parents` is a successful response (a response with no `parents` field is
`ok []`, matching `file.get("parents", [])`); `err` is any raised exception
(404, transient failure, ...). -/
inductive MetaLookup where
  | ok (parents : List String)
  | err
  deriving DecidableEq, Repr

/-- The remote Drive API as seen by `DriveService`. -/
structure DriveEnv where
  getParents : String → MetaLookup

/-- Remote Drive calls, in the order issued. `metadataGet` is the parent
lookup inside `_verify_access`; the others are the payload calls of the five
operations. -/
inductive DriveEvent where
  | metadataGet (fileId : String)
  | listCall (folderId : String)
  | listAllCall
  | getMedia (fileId : String)
  | createCall (folderId : String)
  | deleteCall (fileId : String)
  deriving DecidableEq, Repr

/-- The `PermissionError`s raised by `_verify_access`. Note that the inner
"not in allowed folders" `PermissionError` raised inside the `try` block is
caught by the blanket `except Exception` and re-raised wrapped as
"Could not verify access for file ...", so every denial on the file path
surfaces as `couldNotVerifyFile`. -/
inductive VerifyError where
  | accessDisabled
  | folderNotAllowed (folderId : String)
  | couldNotVerifyFile (fileId : String)
  deriving DecidableEq, Repr

structure DriveService where
  allowedFolderIds : List String
  deriving DecidableEq, Repr

/-- `DriveService.__init__`: `self.allowed_folder_ids = allowed_folder_ids or []`
(both `None` and `[]` give `[]`). -/
def mkDriveService (allowedFolderIds : Option (List String)) : DriveService :=
  ⟨allowedFolderIds.getD []⟩

/-- `DriveService._verify_access(file_id, parent_id)` (drive.py lines 17–38).
Returns the verdict and the remote calls it issued.

The guards `if parent_id:` and `if file_id:` use Python truthiness: both
`None` and the empty string are falsy, so an empty-string argument skips the
corresponding check entirely (the empty string passes through unverified). -/
def verifyAccess (env : DriveEnv) (svc : DriveService)
    (fileId : Option String) (parentId : Option String) :
    Except VerifyError Unit × List DriveEvent :=
  if svc.allowedFolderIds.isEmpty then
    (.error .accessDisabled, [])
  else
    match parentId with
    | some p =>
      if p = "" then verifyFile env svc fileId
      else if p ∈ svc.allowedFolderIds then verifyFile env svc fileId
      else (.error (.folderNotAllowed p), [])
    | none => verifyFile env svc fileId
where
  /-- The `if file_id:` block with its `try`/`except`; the empty string is
  falsy, so it skips the parents lookup. -/
  verifyFile (env : DriveEnv) (svc : DriveService) (fileId : Option String) :
      Except VerifyError Unit × List DriveEvent :=
    match fileId with
    | none => (.ok (), [])
    | some f =>
      if f = "" then (.ok (), [])
      else
        match env.getParents f with
        | .err => (.error (.couldNotVerifyFile f), [.metadataGet f])
        | .ok parents =>
          if parents.any (fun p => p ∈ svc.allowedFolderIds) then
            (.ok (), [.metadataGet f])
          else
            (.error (.couldNotVerifyFile f), [.metadataGet f])

/-- `DriveService.list_files(folder_id)`: guard on the folder id, then the
`files().list` call. The remote result payload is abstracted to `Unit`. -/
def list_files (env : DriveEnv) (svc : DriveService) (folderId : String) :
    Except VerifyError Unit × List DriveEvent :=
  match verifyAccess env svc none (some folderId) with
  | (.error e, tr) => (.error e, tr)
  | (.ok _, tr) => (.ok (), tr ++ [.listCall folderId])

/-- `DriveService.list_all_files(pageSize)`: no access check at all. -/
def list_all_files (_env : DriveEnv) (_svc : DriveService) :
    Except VerifyError Unit × List DriveEvent :=
  (.ok (), [.listAllCall])

/-- `DriveService.download_file(file_id, local_path)`: guard on the file id,
then the `files().get_media` content download. -/
def download_file (env : DriveEnv) (svc : DriveService) (fileId : String) :
    Except VerifyError Unit × List DriveEvent :=
  match verifyAccess env svc (some fileId) none with
  | (.error e, tr) => (.error e, tr)
  | (.ok _, tr) => (.ok (), tr ++ [.getMedia fileId])

/-- `DriveService.upload_file(local_path, folder_id, filename)`: guard on the
destination folder, then the `files().create` call. -/
def upload_file (env : DriveEnv) (svc : DriveService) (folderId : String) :
    Except VerifyError Unit × List DriveEvent :=
  match verifyAccess env svc none (some folderId) with
  | (.error e, tr) => (.error e, tr)
  | (.ok _, tr) => (.ok (), tr ++ [.createCall folderId])

/-- `DriveService.remove_file(file_id)`: guard on the file id, then the
`files().delete` call. -/
def remove_file (env : DriveEnv) (svc : DriveService) (fileId : String) :
    Except VerifyError Unit × List DriveEvent :=
  match verifyAccess env svc (some fileId) none with
  | (.error e, tr) => (.error e, tr)
  | (.ok _, tr) => (.ok (), tr ++ [.deleteCall fileId])

/-- A remote call that mutates Drive state or reads folder/file content:
the payload calls of the four guarded operations. The `metadataGet` parent
lookup and the admin `listAllCall` are not in this class. -/
def isGuardedRemote : DriveEvent → Bool
  | .listCall _ => true
  | .getMedia _ => true
  | .createCall _ => true
  | .deleteCall _ => true
  | .metadataGet _ => false
  | .listAllCall => false

/-! ## Resource registry (config.py)

`AppConfig` holds the two alias registries; a `Dict[str, ResourceConfig]` is
embedded as an association list with `List.lookup`. The resolution functions
issue no remote call, which the (always empty) `DriveEvent` trace component
records. -/

structure ResourceConfig where
  id : String
  profile : String
  description : Option String
  deriving DecidableEq, Repr

structure AppConfig where
  sheets : List (String × ResourceConfig)
  drive_folders : List (String × ResourceConfig)
  deriving DecidableEq, Repr

/-- The `ValueError("Access Denied: ... alias ... not found ...")` raised by
the two resolution functions; the spec's taxonomy calls it `NotFoundError`. -/
inductive ConfigError where
  | aliasNotFound (kind : String) (name : String)
  deriving DecidableEq, Repr

/-- `ConfigManager.get_sheet_resource(alias)` (config.py lines 39–42). -/
def get_sheet_resource (cfg : AppConfig) (aliasName : String) :
    Except ConfigError ResourceConfig × List DriveEvent :=
  match cfg.sheets.lookup aliasName with
  | some r => (.ok r, [])
  | none => (.error (.aliasNotFound "sheet" aliasName), [])

/-- `ConfigManager.get_folder_resource(alias)` (config.py lines 44–47). -/
def get_folder_resource (cfg : AppConfig) (aliasName : String) :
    Except ConfigError ResourceConfig × List DriveEvent :=
  match cfg.drive_folders.lookup aliasName with
  | some r => (.ok r, [])
  | none => (.error (.aliasNotFound "folder" aliasName), [])

/-! ## Token-file persistence (auth.py lines 15–20 and 73–76)

The store write performed by `get_credentials` is `get_config_dir` (which
runs `os.makedirs(config_dir, exist_ok=True)`) followed by
`open(token_path, "w")` — which truncates the file — and then
`token.write(creds.to_json())`. We model the sequence of filesystem
operations and the token-file contents observable after each step. -/

/-- Filesystem steps of the token write, in program order. -/
inductive FsOp where
  | makeDirs (path : String)
  | openTruncate (path : String)
  | writeContent (path : String) (content : String)
  deriving DecidableEq, Repr

/-- `get_config_dir(profile)`: XDG base, app name, "profiles", profile. -/
def configDir (base : String) (profile : String) : String :=
  base ++ "/google-personal-mcp/profiles/" ++ profile

def tokenPath (base : String) (profile : String) : String :=
  configDir base profile ++ "/token.json"

/-- The filesystem operations `get_credentials` performs to persist a token:
create the profile directory if absent, open the token file with mode "w"
(truncating it), write the serialized record. There is no temp-file/rename
step. -/
def writeTokenOps (base : String) (profile : String) (content : String) :
    List FsOp :=
  [.makeDirs (configDir base profile),
   .openTruncate (tokenPath base profile),
   .writeContent (tokenPath base profile) content]

/-- Effect of one step on the token file's contents (`none` = file absent).
`makeDirs` does not touch the file; `openTruncate` empties it;
`writeContent` sets it. -/
def applyFsOp (file : Option String) : FsOp → Option String
  | .makeDirs _ => file
  | .openTruncate _ => some ""
  | .writeContent _ c => some c

/-- Token-file contents observable after each prefix of the op sequence
(the initial contents included). -/
def fileStates (init : Option String) (ops : List FsOp) : List (Option String) :=
  ops.scanl applyFsOp init

/-! ## Helper lemmas -/

/-- A successful `runConsent` returns the record it just persisted: the final
store holds it and the last effect before returning is its write. -/
theorem runConsent_ok (env : AuthEnv) (store : Option CredRecord)
    (r : CredRecord) (final : Option CredRecord) (trace : List AuthEvent)
    (h : runConsent env store = (.ok r, final, trace)) :
    final = some r ∧ trace.getLast? = some (.storeWrite r) := by
  unfold runConsent at h
  cases hf : env.credentialsFileFound <;> rw [hf] at h
  · simp at h
  · cases ho : env.consentOutcome <;> rw [ho] at h <;> simp at h
    obtain ⟨h1, h2, h3⟩ := h
    subst h1; subst h2; subst h3
    exact ⟨rfl, rfl⟩

/-- `_verify_access` only ever issues the metadata parent lookup: none of its
remote calls are guarded content reads or mutations. -/
theorem verifyAccess_events (env : DriveEnv) (svc : DriveService)
    (fid pid : Option String) :
    ∀ e ∈ (verifyAccess env svc fid pid).2, isGuardedRemote e = false := by
  have hfile : ∀ e ∈ (verifyAccess.verifyFile env svc fid).2,
      isGuardedRemote e = false := by
    cases fid with
    | none => simp [verifyAccess.verifyFile]
    | some f =>
      by_cases hf : f = ""
      · simp [verifyAccess.verifyFile, hf]
      · cases hp : env.getParents f with
        | err => simp [verifyAccess.verifyFile, hf, hp, isGuardedRemote]
        | ok ps =>
          by_cases hav : ps.any (fun p => p ∈ svc.allowedFolderIds) = true <;>
            simp [verifyAccess.verifyFile, hf, hp, hav, isGuardedRemote]
  unfold verifyAccess
  cases he : svc.allowedFolderIds.isEmpty <;> simp
  cases pid with
  | none => exact hfile
  | some p =>
    by_cases hpe : p = ""
    · simp only [hpe, if_true, reduceIte]
      exact hfile
    · by_cases hp : p ∈ svc.allowedFolderIds <;> simp [hpe, hp]
      exact hfile

/-- Shape lemma for the four guarded operations: if the overall trace holds a
guarded remote call, the access check succeeded and the trace is exactly the
check's own calls followed by the single payload call. -/
theorem afterGuard_spec (v : Except VerifyError Unit × List DriveEvent)
    (payload : DriveEvent)
    (hv : ∀ e ∈ v.2, isGuardedRemote e = false)
    (res : Except VerifyError Unit × List DriveEvent)
    (herr : ∀ e tr, v = (.error e, tr) → res = (.error e, tr))
    (hok : ∀ tr, v = (.ok (), tr) → res = (.ok (), tr ++ [payload])) :
    (∃ e ∈ res.2, isGuardedRemote e = true) →
      v.1 = .ok () ∧ res.2 = v.2 ++ [payload] := by
  rcases v with ⟨v1, tr⟩
  cases v1 with
  | error e =>
    rintro ⟨ev, hmem, hg⟩
    rw [herr e tr rfl] at hmem
    exact absurd hg (by simp [hv ev hmem])
  | ok u =>
    cases u
    intro _
    exact ⟨rfl, by rw [hok tr rfl]⟩

/-! ## Claims -/

/-- C10: when the `scopes` argument is omitted (`None`), `get_credentials`
substitutes the fixed default scope set {spreadsheets, drive.file}, so the
default path behaves exactly as an explicit request for those two scopes. -/
theorem C10_default_scopes (env : AuthEnv) (store : Option CredRecord) :
    get_credentials env store none = get_credentials env store (some defaultScopes) ∧
    defaultScopes = ["https://www.googleapis.com/auth/spreadsheets",
                     "https://www.googleapis.com/auth/drive.file"] :=
  ⟨rfl, rfl⟩

/-- C2: a `DriveService` whose allowlist is empty (constructed with `None` or
`[]`) denies every operation kind — folder listing, upload, download,
removal, and `_verify_access` itself — with the access-disabled error and
issues no remote Drive call at all; an empty allowlist disables the feature
rather than leaving it unrestricted. -/
theorem C2_empty_allowlist_denies (env : DriveEnv) (svc : DriveService)
    (h : svc.allowedFolderIds = []) (folderId fileId : String) :
    list_files env svc folderId = (.error .accessDisabled, []) ∧
    upload_file env svc folderId = (.error .accessDisabled, []) ∧
    download_file env svc fileId = (.error .accessDisabled, []) ∧
    remove_file env svc fileId = (.error .accessDisabled, []) ∧
    verifyAccess env svc (some fileId) (some folderId) =
      (.error .accessDisabled, []) ∧
    mkDriveService none = ⟨[]⟩ ∧ mkDriveService (some []) = ⟨[]⟩ := by
  refine ⟨?_, ?_, ?_, ?_, ?_, rfl, rfl⟩ <;>
    simp [list_files, upload_file, download_file, remove_file, verifyAccess, h]

/-- C2 witness: the empty-allowlist service denies a concrete listing with no
remote call. -/
theorem C2_empty_allowlist_denies_witness :
    list_files ⟨fun _ => .err⟩ ⟨[]⟩ "F1" =
      (.error .accessDisabled, []) :=
  (C2_empty_allowlist_denies ⟨fun _ => .err⟩ ⟨[]⟩ rfl "F1" "X1").1

/-- C5: resolving an alias absent from the relevant registry fails with the
not-found error and attempts no remote call; a successful resolution always
returns an entry taken from the registry, never the input string treated as
a raw identifier. -/
theorem C5_alias_gate (cfg : AppConfig) (a : String) :
    (cfg.sheets.lookup a = none →
      get_sheet_resource cfg a = (.error (.aliasNotFound "sheet" a), [])) ∧
    (∀ r, get_sheet_resource cfg a = (.ok r, []) ↔ cfg.sheets.lookup a = some r) ∧
    (get_sheet_resource cfg a).2 = [] ∧
    (cfg.drive_folders.lookup a = none →
      get_folder_resource cfg a = (.error (.aliasNotFound "folder" a), [])) ∧
    (∀ r, get_folder_resource cfg a = (.ok r, []) ↔
      cfg.drive_folders.lookup a = some r) ∧
    (get_folder_resource cfg a).2 = [] := by
  rcases h1 : cfg.sheets.lookup a with _ | r1 <;>
    rcases h2 : cfg.drive_folders.lookup a with _ | r2 <;>
      simp [get_sheet_resource, get_folder_resource, h1, h2]

/-- C5 witness: the alias "missing" is absent from an empty registry and
resolution fails without any remote call. -/
theorem C5_alias_gate_witness :
    get_sheet_resource ⟨[], []⟩ "missing" =
      (.error (.aliasNotFound "sheet" "missing"), []) :=
  (C5_alias_gate ⟨[], []⟩ "missing").1 rfl

/-- C8 counterexample: the token write is not atomic. Starting from a stored
record "OLD" and writing "NEW", a reader can observe the truncated (empty)
file left by `open(token_path, "w")` — a state that is neither the old nor
the new record, contradicting the claim that a partially written record is
never observable. -/
theorem C8_counterexample :
    some "" ∈ fileStates (some "OLD")
      (writeTokenOps "/home/u/.config" "default" "NEW") ∧
    some "" ≠ (some "OLD" : Option String) ∧
    some "" ≠ (some "NEW" : Option String) := by
  constructor
  · simp [fileStates, writeTokenOps, applyFsOp, List.scanl]
  · constructor <;> simp

/-- C8 (amended): the token write first creates the profile's directory
(derived from the profile name) if absent, and on completion the file holds
the new record; but the replacement is done by truncating and rewriting the
file in place, so an intermediate truncated (empty) state is observable. -/
theorem C8_write_dir_then_truncate (base profile content : String)
    (init : Option String) :
    (writeTokenOps base profile content).head? =
      some (.makeDirs (configDir base profile)) ∧
    (fileStates init (writeTokenOps base profile content)).getLast? =
      some (some content) ∧
    some "" ∈ fileStates init (writeTokenOps base profile content) := by
  refine ⟨rfl, ?_, ?_⟩ <;>
    simp [fileStates, writeTokenOps, applyFsOp, List.scanl]

/-- C1 counterexample: stored record has the required scope, is expired and
holds a refresh token; the remote refresh call fails. `get_credentials` does
NOT fall back to the interactive consent flow: the refresh exception
propagates uncaught (`creds.refresh` at auth.py line 66 is not wrapped in a
`try`), the consent flow is never reached, and nothing is written. -/
theorem C1_counterexample :
    get_credentials
        ⟨none, true, some ⟨["s"], "fresh", some "r", false⟩⟩
        (some ⟨["s"], "old", some "r", true⟩)
        (some ["s"]) =
      (.refreshError, some ⟨["s"], "old", some "r", true⟩, [.refreshCall]) ∧
    AuthEvent.consentFlow ∉
      (get_credentials
        ⟨none, true, some ⟨["s"], "fresh", some "r", false⟩⟩
        (some ⟨["s"], "old", some "r", true⟩)
        (some ["s"])).2.2 := by
  constructor
  · rfl
  · simp [get_credentials, authObtain, hasScopes, credValid]

/-- C1 (amended): when the stored record has the required scopes, is expired
and has a refresh token, and the remote refresh call fails, `get_credentials`
raises that error to the caller — there is no fallback to the interactive
consent flow, and refresh failure is a terminal outcome alongside the
consent-flow failure. -/
theorem C1_refresh_failure_raises (env : AuthEnv) (rec : CredRecord)
    (scopes : List String) (h1 : hasScopes rec scopes = true)
    (h2 : rec.expired = true) (h3 : rec.refreshToken.isSome = true)
    (h4 : env.refreshOutcome = none) :
    get_credentials env (some rec) (some scopes) =
      (.refreshError, some rec, [.refreshCall]) := by
  simp [get_credentials, authObtain, h1, credValid, h2, h3, h4]

/-- C1 witness: the amended behavior at a concrete expired record with a
refresh token and a failing refresh endpoint. -/
theorem C1_refresh_failure_raises_witness :
    get_credentials
        ⟨none, true, some ⟨["s"], "fresh", some "r", false⟩⟩
        (some ⟨["s2"], "old2", some "r2", true⟩)
        (some ["s2"]) =
      (.refreshError, some ⟨["s2"], "old2", some "r2", true⟩, [.refreshCall]) :=
  C1_refresh_failure_raises
    ⟨none, true, some ⟨["s"], "fresh", some "r", false⟩⟩
    ⟨["s2"], "old2", some "r2", true⟩ ["s2"]
    (by decide) rfl rfl rfl

/-- C4: when the stored record's granted scopes do not superset the required
scopes, `get_credentials` discards the record: its result and effect trace
are exactly those of the no-record path (straight to consent), the refresh
path is never taken, and — whenever a client-secrets file is present — the
interactive consent flow is launched, regardless of the record's expiry. -/
theorem C4_scope_shortfall_reauth (env : AuthEnv) (rec : CredRecord)
    (scopes : List String) (h : hasScopes rec scopes = false) :
    (get_credentials env (some rec) (some scopes)).1 =
      (get_credentials env none (some scopes)).1 ∧
    (get_credentials env (some rec) (some scopes)).2.2 =
      (get_credentials env none (some scopes)).2.2 ∧
    AuthEvent.refreshCall ∉ (get_credentials env (some rec) (some scopes)).2.2 ∧
    (env.credentialsFileFound = true →
      AuthEvent.consentFlow ∈ (get_credentials env (some rec) (some scopes)).2.2) := by
  cases hf : env.credentialsFileFound <;>
    cases ho : env.consentOutcome <;>
      simp [get_credentials, authObtain, runConsent, h, hf, ho]

/-- C4 witness: a concrete record with the wrong scope and expiry far in the
future still goes straight to the consent flow. -/
theorem C4_scope_shortfall_reauth_witness :
    AuthEvent.consentFlow ∈
      (get_credentials
        ⟨some "tok", true, some ⟨["drive.file"], "new", none, false⟩⟩
        (some ⟨["drive.readonly"], "at", some "rt", false⟩)
        (some ["drive.file"])).2.2 :=
  (C4_scope_shortfall_reauth
    ⟨some "tok", true, some ⟨["drive.file"], "new", none, false⟩⟩
    ⟨["drive.readonly"], "at", some "rt", false⟩ ["drive.file"]
    (by decide)).2.2.2 rfl

/-- C9: two successive `get_credentials` calls on a stored record that has
the required scopes and is unexpired each return that record unchanged, with
an empty effect trace (in particular zero store writes), and leave the store
as it was. -/
theorem C9_idempotent (env : AuthEnv) (rec : CredRecord) (scopes : List String)
    (h1 : hasScopes rec scopes = true) (h2 : rec.expired = false) :
    get_credentials env (some rec) (some scopes) = (.ok rec, some rec, []) ∧
    get_credentials env
        (get_credentials env (some rec) (some scopes)).2.1 (some scopes) =
      (.ok rec, some rec, []) := by
  constructor <;> simp [get_credentials, authObtain, h1, credValid, h2]

/-- C9 witness: a concrete valid record is returned twice identically with no
writes. -/
theorem C9_idempotent_witness :
    get_credentials ⟨none, false, none⟩
        (some ⟨["s"], "tok", some "r", false⟩) (some ["s"]) =
      (.ok ⟨["s"], "tok", some "r", false⟩,
       some ⟨["s"], "tok", some "r", false⟩, []) :=
  (C9_idempotent ⟨none, false, none⟩ ⟨["s"], "tok", some "r", false⟩ ["s"]
    (by decide) rfl).1

/-- C3 counterexample: the claim quantifies over every file id, but at
`file_id = ""` — falsy under Python's `if file_id:` — `_verify_access` with
the non-empty allowlist ["F1"] skips the parents block entirely and allows,
issuing no metadata lookup, even in an environment where every lookup fails:
the check does not deny on lookup failure there, and it allows without any
parent intersecting the allowlist. -/
theorem C3_counterexample :
    verifyAccess ⟨fun _ => .err⟩ ⟨["F1"]⟩ (some "") none = (.ok (), []) ∧
    (["F1"] : List String) ≠ [] := by
  exact ⟨rfl, by simp⟩

/-- C3 (amended): with a non-empty allowlist, for every NON-EMPTY file id the
file-access check denies whenever the remote parent-metadata lookup raises
(fail-closed), and it allows exactly when the lookup succeeds and the
returned parent folder ids intersect the allowlist; the empty-string file id
is falsy in `if file_id:`, so the check skips the lookup and allows it
unverified. -/
theorem C3_access_file_fail_closed (env : DriveEnv) (svc : DriveService)
    (fid : String) (h : svc.allowedFolderIds ≠ []) (hf : fid ≠ "") :
    (env.getParents fid = .err →
      verifyAccess env svc (some fid) none =
        (.error (.couldNotVerifyFile fid), [.metadataGet fid])) ∧
    ((verifyAccess env svc (some fid) none).1 = .ok () ↔
      ∃ ps, env.getParents fid = .ok ps ∧
        ps.any (fun p => p ∈ svc.allowedFolderIds) = true) ∧
    verifyAccess env svc (some "") none = (.ok (), []) := by
  have hne : svc.allowedFolderIds.isEmpty = false := by
    cases hl : svc.allowedFolderIds with
    | nil => exact absurd hl h
    | cons x xs => simp [List.isEmpty]
  refine ⟨?_, ?_, ?_⟩
  · intro hp
    simp [verifyAccess, verifyAccess.verifyFile, hne, hf, hp]
  · cases hp : env.getParents fid with
    | err => simp [verifyAccess, verifyAccess.verifyFile, hne, hf, hp]
    | ok ps =>
      by_cases hav : ps.any (fun p => p ∈ svc.allowedFolderIds) = true <;>
        simp [verifyAccess, verifyAccess.verifyFile, hne, hf, hp, hav] <;>
          simpa using hav
  · simp [verifyAccess, verifyAccess.verifyFile, hne]

/-- C3 witness: with allowlist ["F1"] and a failing metadata lookup, access
to a concrete non-empty file id is denied. -/
theorem C3_access_file_fail_closed_witness :
    verifyAccess ⟨fun _ => .err⟩ ⟨["F1"]⟩ (some "X") none =
      (.error (.couldNotVerifyFile "X"), [.metadataGet "X"]) :=
  (C3_access_file_fail_closed ⟨fun _ => .err⟩ ⟨["F1"]⟩ "X"
    (by decide) (by decide)).1 rfl

/-- C6: each of the four guarded operations issues its payload call (folder
listing, content download, create, delete) only if `_verify_access`
succeeded, and then the trace is exactly the check's calls followed by that
single payload call — the check precedes every mutating or content-reading
remote call; `list_all_files`, by contrast, performs no allowlist check at
all and always issues its listing call, whatever the allowlist. -/
theorem C6_guard_precedes_remote (env : DriveEnv) (svc : DriveService)
    (folderId fileId : String) :
    ((∃ e ∈ (list_files env svc folderId).2, isGuardedRemote e = true) →
      (verifyAccess env svc none (some folderId)).1 = .ok () ∧
      (list_files env svc folderId).2 =
        (verifyAccess env svc none (some folderId)).2 ++ [.listCall folderId]) ∧
    ((∃ e ∈ (upload_file env svc folderId).2, isGuardedRemote e = true) →
      (verifyAccess env svc none (some folderId)).1 = .ok () ∧
      (upload_file env svc folderId).2 =
        (verifyAccess env svc none (some folderId)).2 ++ [.createCall folderId]) ∧
    ((∃ e ∈ (download_file env svc fileId).2, isGuardedRemote e = true) →
      (verifyAccess env svc (some fileId) none).1 = .ok () ∧
      (download_file env svc fileId).2 =
        (verifyAccess env svc (some fileId) none).2 ++ [.getMedia fileId]) ∧
    ((∃ e ∈ (remove_file env svc fileId).2, isGuardedRemote e = true) →
      (verifyAccess env svc (some fileId) none).1 = .ok () ∧
      (remove_file env svc fileId).2 =
        (verifyAccess env svc (some fileId) none).2 ++ [.deleteCall fileId]) ∧
    list_all_files env svc = (.ok (), [.listAllCall]) :=
  ⟨afterGuard_spec _ _ (verifyAccess_events env svc none (some folderId)) _
     (by intro e tr hv; simp [list_files, hv])
     (by intro tr hv; simp [list_files, hv]),
   afterGuard_spec _ _ (verifyAccess_events env svc none (some folderId)) _
     (by intro e tr hv; simp [upload_file, hv])
     (by intro tr hv; simp [upload_file, hv]),
   afterGuard_spec _ _ (verifyAccess_events env svc (some fileId) none) _
     (by intro e tr hv; simp [download_file, hv])
     (by intro tr hv; simp [download_file, hv]),
   afterGuard_spec _ _ (verifyAccess_events env svc (some fileId) none) _
     (by intro e tr hv; simp [remove_file, hv])
     (by intro tr hv; simp [remove_file, hv]),
   rfl⟩

/-- C6 witness: at a concrete service whose allowlist holds the listed
folder, the listing payload is present in the trace, the check succeeded,
and the payload follows the check's calls. -/
theorem C6_guard_precedes_remote_witness :
    (verifyAccess ⟨fun _ => .ok ["F1"]⟩ ⟨["F1"]⟩ none (some "F1")).1 = .ok () ∧
    (list_files ⟨fun _ => .ok ["F1"]⟩ ⟨["F1"]⟩ "F1").2 =
      (verifyAccess ⟨fun _ => .ok ["F1"]⟩ ⟨["F1"]⟩ none (some "F1")).2 ++
        [.listCall "F1"] :=
  (C6_guard_precedes_remote ⟨fun _ => .ok ["F1"]⟩ ⟨["F1"]⟩ "F1" "X").1
    ⟨.listCall "F1", by decide, rfl⟩

/-- C7: whenever `get_credentials` returns a record, the store afterwards
holds exactly that record, and either no effects were performed (the record
came unchanged from the store) or the last effect performed before returning
was the write of that very record — a freshly obtained credential is always
persisted before it is handed to the caller. -/
theorem C7_persist_before_return (env : AuthEnv) (store : Option CredRecord)
    (scopesArg : Option (List String)) (r : CredRecord)
    (final : Option CredRecord) (trace : List AuthEvent)
    (h : get_credentials env store scopesArg = (.ok r, final, trace)) :
    final = some r ∧
    (trace = [] ∨ trace.getLast? = some (.storeWrite r)) := by
  cases store with
  | none =>
    simp only [get_credentials, authObtain] at h
    have hc := runConsent_ok env none r final trace h
    exact ⟨hc.1, Or.inr hc.2⟩
  | some rec =>
    cases hs : hasScopes rec (scopesArg.getD defaultScopes) with
    | false =>
      rw [get_credentials, authObtain] at h
      simp only [hs, Bool.false_eq_true, if_false] at h
      have hc := runConsent_ok env (some rec) r final trace h
      exact ⟨hc.1, Or.inr hc.2⟩
    | true =>
      cases hv : credValid rec with
      | true =>
        rw [get_credentials, authObtain] at h
        simp only [hs, hv, if_true] at h
        simp only [Prod.mk.injEq, AuthResult.ok.injEq] at h
        obtain ⟨h1, h2, h3⟩ := h
        subst h1; subst h2; subst h3
        exact ⟨rfl, Or.inl rfl⟩
      | false =>
        cases hb : rec.expired && rec.refreshToken.isSome with
        | false =>
          rw [get_credentials, authObtain] at h
          simp only [hs, hv, hb, Bool.false_eq_true, if_true, if_false] at h
          have hc := runConsent_ok env (some rec) r final trace h
          exact ⟨hc.1, Or.inr hc.2⟩
        | true =>
          cases ho : env.refreshOutcome with
          | none =>
            rw [get_credentials, authObtain] at h
            simp only [hs, hv, hb, ho, Bool.false_eq_true, if_true,
              if_false] at h
            simp at h
          | some t =>
            rw [get_credentials, authObtain] at h
            simp only [hs, hv, hb, ho, Bool.false_eq_true, if_true,
              if_false] at h
            simp only [Prod.mk.injEq, AuthResult.ok.injEq] at h
            obtain ⟨h1, h2, h3⟩ := h
            subst h1; subst h2; subst h3
            exact ⟨rfl, Or.inr rfl⟩

/-- C7 witness: at a concrete consent-flow success the store ends up holding
the returned record and the last effect is its write. -/
theorem C7_persist_before_return_witness :
    (some (⟨["s"], "tok2", none, false⟩ : CredRecord) :
        Option CredRecord) =
      some ⟨["s"], "tok2", none, false⟩ ∧
    (([.consentFlow, .storeWrite ⟨["s"], "tok2", none, false⟩] :
        List AuthEvent) = [] ∨
     ([.consentFlow, .storeWrite ⟨["s"], "tok2", none, false⟩] :
        List AuthEvent).getLast? =
       some (.storeWrite ⟨["s"], "tok2", none, false⟩)) :=
  C7_persist_before_return
    ⟨none, true, some ⟨["s"], "tok2", none, false⟩⟩ none (some ["s"])
    ⟨["s"], "tok2", none, false⟩
    (some ⟨["s"], "tok2", none, false⟩)
    [.consentFlow, .storeWrite ⟨["s"], "tok2", none, false⟩] rfl

end GoogleMcp
